import Mathlib

/-!
Verification of the HTTP request pipeline (http-client and api-client packages).

The development shallowly embeds the pipeline logic of the repository:
the interceptor chains of HttpClient.request and InterceptorManager
(packages/http-client), the retry controller, cancellation composition,
Content-Type defaulting, URL resolution and JSON response parsing of the
fetch adapter and the ApiClient (api-client package).  Promises are
modelled with Except (a settled promise is either fulfilled or rejected),
machine numbers with Nat or Int, and optional JavaScript values with
Option, keeping JavaScript falsiness explicit where the source relies
on it.
-/

/- ===================================================================
   Interceptor chain of packages/http-client (httpClient.ts and
   interceptorManager.ts).
   =================================================================== -/

/-- One entry of the http-client request interceptor manager: the three
optional fields passed to InterceptorManager.use.  The fulfilled handler
may reject (throw), hence Except in its codomain; the rejected handler of
httpClient.ts returns an error value that is rethrown. -/
structure ReqInterceptor (C E : Type) where
  onFulfilled : Option (C → Except E C)
  onRejected : Option (E → E)
  runWhen : Option (C → Bool)

/-- One step of the request interceptor loop of HttpClient.request
(httpClient.ts lines 139 to 177).  A null slot is skipped; an entry whose
onFulfilled is undefined attaches no promise continuation; otherwise the
continuation pair runs: on a fulfilled config, the source gate reads
if (!runWhen || !runWhen(requestConfig)) return requestConfig, so the
fulfilled handler runs only when runWhen is present and returns true; on
a rejected promise the source throws onRejected(error) when onRejected is
present and rethrows the error otherwise.  The isRAWRequestConfig shape
check of the source always passes here because the embedding is typed. -/
def stepReq {C E : Type} (p : Except E C) (i : Option (ReqInterceptor C E)) :
    Except E C :=
  match i with
  | none => p
  | some i =>
    match i.onFulfilled with
    | none => p
    | some f =>
      match p with
      | Except.ok c =>
        match i.runWhen with
        | none => Except.ok c
        | some w => if w c then f c else Except.ok c
      | Except.error e =>
        Except.error (match i.onRejected with
          | some r => r e
          | none => e)

/-- Request interceptor chain of HttpClient.request: the live interceptor
array is iterated in insertion order, threading the promise. -/
def runRequestInterceptors {C E : Type}
    (chain : List (Option (ReqInterceptor C E))) (p : Except E C) :
    Except E C :=
  chain.foldl stepReq p

/-- One entry of the http-client response interceptor manager: the pair
passed to interceptors.response.use. -/
structure RespInterceptor (R E : Type) where
  onFulfilled : Option (R → Except E R)
  onRejected : Option (E → E)

/-- One step of the response interceptor loop of HttpClient.request
(httpClient.ts lines 194 to 224).  A null slot is skipped; an entry whose
onFulfilled is undefined attaches no continuation at all (its onRejected
is never consulted); otherwise on a fulfilled response the fulfilled
handler runs, and on a rejected promise the source throws
onRejected(error) when present, rethrowing the error otherwise — the
rejection handler result is always rethrown, never returned. -/
def stepResp {R E : Type} (p : Except E R) (i : Option (RespInterceptor R E)) :
    Except E R :=
  match i with
  | none => p
  | some i =>
    match i.onFulfilled with
    | none => p
    | some f =>
      match p with
      | Except.ok r => f r
      | Except.error e =>
        Except.error (match i.onRejected with
          | some rej => rej e
          | none => e)

/-- Response interceptor chain of HttpClient.request: forward iteration of
the live interceptor array. -/
def runResponseInterceptors {R E : Type}
    (chain : List (Option (RespInterceptor R E))) (p : Except E R) :
    Except E R :=
  chain.foldl stepResp p

/-- Accumulated effect of the rejection path of one response entry of
httpClient.ts: entries that are null or lack onFulfilled leave the error
untouched (no continuation was attached); other entries rewrite the error
through onRejected when present. -/
def respRejectEffect {R E : Type} (e : E) (i : Option (RespInterceptor R E)) :
    E :=
  match i with
  | none => e
  | some i =>
    match i.onFulfilled with
    | none => e
    | some _ =>
      match i.onRejected with
      | some rej => rej e
      | none => e

/- ===================================================================
   InterceptorManager of the api-client package (interceptors.ts).
   =================================================================== -/

/-- One response interceptor entry of the api-client InterceptorManager
(interceptors.ts), as stored by addResponseInterceptor. -/
structure AcRespEntry (R E : Type) where
  onFulfilled : Option (R → R)
  onRejected : Option (E → E)

/-- InterceptorManager.executeErrorInterceptors of the api-client: the
response interceptor collection is walked from the last index down to 0
and every present onRejected rewrites the running value, which is then
returned (the caller in ApiClient.executeRequest rethrows it). -/
def executeErrorInterceptors {R E : Type} (entries : List (AcRespEntry R E))
    (e : E) : E :=
  entries.reverse.foldl
    (fun acc ent =>
      match ent.onRejected with
      | some rej => rej acc
      | none => acc)
    e

/- ===================================================================
   InterceptorManager of packages/http-client (interceptorManager.ts):
   id issuance, eject and clear.
   =================================================================== -/

/-- State of the http-client InterceptorManager: the interceptors array,
whose slots are null after an eject. -/
abbrev ImState (I : Type) : Type := List (Option I)

/-- InterceptorManager.use: pushes the entry and returns
this.interceptors.length - 1, that is, the index of the pushed slot. -/
def imUse {I : Type} (s : ImState I) (i : I) : Nat × ImState I :=
  (s.length, s ++ [some i])

/-- InterceptorManager.eject: if the slot at the id is truthy (in range
and not null) it is nulled in place; otherwise nothing happens. -/
def imEject {I : Type} (s : ImState I) (id : Nat) : ImState I :=
  if (s.getD id none).isSome then s.set id none else s

/-- InterceptorManager.clear: the array is replaced by an empty one. -/
def imClear {I : Type} (_s : ImState I) : ImState I :=
  []

/-- Operations on one InterceptorManager between clears. -/
inductive ImOp (I : Type) where
  | use (i : I)
  | eject (id : Nat)

/-- Apply one operation to the manager state, discarding the id returned
by use. -/
def imApply {I : Type} (s : ImState I) : ImOp I → ImState I
  | ImOp.use i => (imUse s i).2
  | ImOp.eject id => imEject s id

/-- Run a sequence of use and eject operations on the manager state. -/
def imRun {I : Type} (s : ImState I) (ops : List (ImOp I)) : ImState I :=
  ops.foldl imApply s

/- ===================================================================
   Retry controller of the api-client package
   (part_005 ApiClient.executeWithRetry, part_004 shouldRetry and
   calculateRetryDelay).
   =================================================================== -/

/-- Shape of an error as probed by shouldRetry (part_004): whether it is
a fetch TypeError (network failure), its numeric status property when
present, and its name property.  An AbortError (user cancellation) has
name AbortError, no status and is not a fetch TypeError; a TimeoutError
has name TimeoutError. -/
structure JsError where
  isFetchTypeError : Bool
  status : Option Int
  name : String
deriving DecidableEq

/-- Function shouldRetry of part_004 lines 209 to 245: network fetch
TypeErrors retry; an error with a numeric status retries when the status
is in the supplied retryableStatusCodes list, or, failing that, when it
is 5xx; otherwise an error named TimeoutError retries; everything else
does not.  The status block falls through to the name check when neither
status rule fires. -/
def shouldRetry (e : JsError) (retryableStatusCodes : Option (List Int)) :
    Bool :=
  if e.isFetchTypeError then true
  else
    match e.status with
    | some s =>
      if (match retryableStatusCodes with
          | some cs => cs.contains s
          | none => false) then true
      else if 500 ≤ s ∧ s < 600 then true
      else if e.name = "TimeoutError" then true
      else false
    | none =>
      if e.name = "TimeoutError" then true
      else false

/-- Function calculateRetryDelay of part_004 lines 191 to 204: without
backoff the base delay is returned; with backoff the delay is
baseDelay * multiplier ^ attempt, clamped by Math.min against maxDelay
when maxDelay is truthy (supplied and nonzero). -/
def calculateRetryDelay (attempt baseDelay : Nat) (backoff : Bool)
    (backoffMultiplier : Nat) (maxDelay : Option Nat) : Nat :=
  if !backoff then baseDelay
  else
    let delay := baseDelay * backoffMultiplier ^ attempt
    match maxDelay with
    | some m => if m = 0 then delay else min delay m
    | none => delay

/-- Delay field of the retry policy: a fixed number or a function of the
attempt index. -/
inductive JsDelay where
  | fixed (n : Nat)
  | func (f : Nat → Nat)

/-- Retry policy object of the api-client (types referenced by
executeWithRetry), with every field optional as in the source. -/
structure JsRetryConfig where
  attempts : Option Nat
  delay : Option JsDelay
  backoff : Option Bool
  backoffMultiplier : Option Nat
  maxDelay : Option Nat
  retryCondition : Option (JsError → Bool)
  retryableStatusCodes : Option (List Int)

/-- Base delay of one attempt in executeWithRetry:
typeof delay === function gives delay(attempt), otherwise delay || 1000
(zero and undefined fall back to 1000). -/
def baseDelayOf (d : Option JsDelay) (attempt : Nat) : Nat :=
  match d with
  | some (JsDelay.func f) => f attempt
  | some (JsDelay.fixed n) => if n = 0 then 1000 else n
  | none => 1000

/-- Effective backoff multiplier of executeWithRetry:
retryConfig.backoffMultiplier || 2 (zero and undefined give 2). -/
def jsMultiplier (cfg : JsRetryConfig) : Nat :=
  match cfg.backoffMultiplier with
  | some m => if m = 0 then 2 else m
  | none => 2

/-- Retry decision of executeWithRetry (part_005 lines 142 to 145): a
supplied retryCondition is consulted exclusively; otherwise shouldRetry
with the retryableStatusCodes of the policy decides. -/
def retryDecision (cfg : JsRetryConfig) (e : JsError) : Bool :=
  match cfg.retryCondition with
  | some p => p e
  | none => shouldRetry e cfg.retryableStatusCodes

/-- Delay slept before the attempt after attempt index i, as computed in
executeWithRetry: the base delay (function or fixed-or-1000) fed to
calculateRetryDelay with backoff || false and backoffMultiplier || 2. -/
def delayAt (cfg : JsRetryConfig) (i : Nat) : Nat :=
  calculateRetryDelay i (baseDelayOf cfg.delay i) (cfg.backoff.getD false)
    (jsMultiplier cfg) cfg.maxDelay

/-- Observable trace of executeWithRetry: how many times executeRequest
was dispatched, the delays slept between attempts, and the settled
outcome. -/
structure RetryTrace (T : Type) where
  dispatches : Nat
  delays : List Nat
  result : Except JsError T

/-- Loop body of executeWithRetry (part_005 lines 134 to 171): the i-th
attempt dispatches; success returns; a failure on the last allowed
attempt, or one the retry decision declines, is thrown; otherwise the
computed delay is slept and the loop continues.  The argument r counts
the iterations the for loop still has (maxAttempts - i); the r = 0 case
is unreachable because maxAttempts is at least 1. -/
def retryLoop {T : Type} (dispatch : Nat → Except JsError T)
    (decide : JsError → Bool) (delay : Nat → Nat) :
    Nat → Nat → RetryTrace T
  | _, 0 => ⟨0, [], Except.error ⟨false, none, ""⟩⟩
  | i, r + 1 =>
    match dispatch i with
    | Except.ok v => ⟨1, [], Except.ok v⟩
    | Except.error e =>
      if r = 0 then ⟨1, [], Except.error e⟩
      else if decide e then
        let t := retryLoop dispatch decide delay (i + 1) r
        ⟨t.dispatches + 1, delay i :: t.delays, t.result⟩
      else ⟨1, [], Except.error e⟩

/-- ApiClient.executeWithRetry (part_005 lines 125 to 172):
maxAttempts = (retryConfig.attempts || 0) + 1 bounds the loop; the retry
decision and per-attempt delay are as in the source. -/
def executeWithRetry {T : Type} (dispatch : Nat → Except JsError T)
    (cfg : JsRetryConfig) : RetryTrace T :=
  retryLoop dispatch (retryDecision cfg) (delayAt cfg) 0 (cfg.attempts.getD 0 + 1)

/- ===================================================================
   Cancellation composition of the fetch adapter (part_000 lines 100
   to 186 and handleAbortError) and timeout arming of
   ApiClient.executeRequest (part_005 lines 192 to 208).
   =================================================================== -/

/-- Effective signal wiring chosen by the fetch adapter: a combined
controller listening to both sources, the timeout controller signal
alone, the user signal passed through, or no signal at all. -/
inductive FinalSignal where
  | combined
  | timeoutOnly
  | userOnly
  | noSignal
deriving DecidableEq

/-- Whether the fetch adapter arms a timer: the source reads
const timeout = config.timeout ?? 30000 and arms setTimeout whenever
timeout > 0, so an absent timeout defaults to 30000 and arms a timer. -/
def adapterTimerCreated (timeout : Option Int) : Bool :=
  (timeout.getD 30000) > 0

/-- Signal wiring of the fetch adapter (part_000 lines 129 to 186),
determined by the effective timeout and the presence of a caller
signal. -/
def adapterFinalSignal (timeout : Option Int) (hasSignal : Bool) :
    FinalSignal :=
  if (timeout.getD 30000) > 0 then
    if hasSignal then FinalSignal.combined else FinalSignal.timeoutOnly
  else
    if hasSignal then FinalSignal.userOnly else FinalSignal.noSignal

/-- Whether ApiClient.executeRequest arms its timeout promise: the source
gate is if (config.timeout && !useXHR), so zero and absent timeouts arm
nothing. -/
def apiClientTimerCreated (timeout : Option Int) (useXHR : Bool) : Bool :=
  (match timeout with
   | some t => t ≠ 0
   | none => false) && !useXHR

/-- Listener and timer state of one adapter attempt with both sources
armed: the isTimeoutAborted flag, whether the setTimeout timer is still
pending, whether the abort listeners on the timeout controller signal and
on the user signal are attached, and whether the combined controller has
aborted. -/
structure RaceState where
  isTimeoutAborted : Bool
  timerArmed : Bool
  timeoutHandlerAttached : Bool
  userHandlerAttached : Bool
  combinedAborted : Bool
deriving DecidableEq

/-- External stimuli of one attempt: the timer firing, or the caller
aborting the user signal. -/
inductive RaceEvent where
  | timerFires
  | userAborts

/-- Event semantics of the adapter wiring.  The timer callback (lines 133
to 136) sets isTimeoutAborted and aborts the timeout controller, whose
abort event runs timeoutAbortHandler (lines 143 to 155) if still
attached: it removes the user handler and aborts the combined controller.
The user handler (lines 158 to 176) clears the timer, removes the timeout
handler and aborts the combined controller; a user abort after the
handler was removed does nothing to this wiring.  A cleared timer never
fires. -/
def raceStep (s : RaceState) : RaceEvent → RaceState
  | RaceEvent.timerFires =>
    if s.timerArmed then
      let s1 := { s with isTimeoutAborted := true, timerArmed := false }
      if s1.timeoutHandlerAttached then
        { s1 with
          userHandlerAttached := false
          timeoutHandlerAttached := false
          combinedAborted := true }
      else s1
    else s
  | RaceEvent.userAborts =>
    if s.userHandlerAttached then
      { s with
        timerArmed := false
        timeoutHandlerAttached := false
        userHandlerAttached := false
        combinedAborted := true }
    else s

/-- Initial state of an attempt in which both a timer and a user signal
are armed (the combined branch of the adapter). -/
def armedBoth : RaceState :=
  ⟨false, true, true, true, false⟩

/-- Run a sequence of events against the wiring state. -/
def raceRun (s : RaceState) (evs : List RaceEvent) : RaceState :=
  evs.foldl raceStep s

/-- Error codes of httpClientError.ts that matter here. -/
inductive ErrCode where
  | timedout
  | canceled
  | invalidUrl
  | badConfigValue
  | badResponse
  | network
deriving DecidableEq

/-- Function handleAbortError of the adapter (part_000 lines 112 to 127):
an abort is attributed to the timeout exactly when isTimeoutAborted was
set, and to user cancellation otherwise. -/
def handleAbortError (s : RaceState) : ErrCode :=
  if s.isTimeoutAborted then ErrCode.timedout else ErrCode.canceled

/- ===================================================================
   Content-Type defaulting of the fetch adapter (part_000 lines 229
   to 248).
   =================================================================== -/

/-- ASCII lower casing of one character, as used by the platform Headers
class for header-name comparison. -/
def charLower (c : Char) : Char :=
  if 'A' ≤ c ∧ c ≤ 'Z' then Char.ofNat (c.toNat + 32) else c

/-- Lower-cased character list of a string, for case-insensitive header
name comparison. -/
def lowerStr (s : String) : List Char :=
  s.data.map charLower

/-- The three header container representations accepted by RequestInit:
a platform Headers object (case-insensitive names), a plain record
(exact string property keys) and an array of name-value pairs. -/
inductive HeaderContainer where
  | headersObj (hs : List (String × String))
  | plainRecord (m : List (String × String))
  | pairArray (a : List (String × String))
deriving DecidableEq

/-- Content-Type presence check of the adapter (part_000 lines 232 to
235): on a Headers instance it calls has, which compares names case
insensitively; otherwise it evaluates headers && "Content-Type" in
headers, which on a plain record is an exact property-key test and on a
pair array tests a property named Content-Type on the array object,
which never exists, so the check is always false there. -/
def hasContentType (h : Option HeaderContainer) : Bool :=
  match h with
  | none => false
  | some (HeaderContainer.headersObj hs) =>
    hs.any (fun p => lowerStr p.1 = "content-type".data)
  | some (HeaderContainer.plainRecord m) =>
    m.any (fun p => p.1 = "Content-Type")
  | some (HeaderContainer.pairArray _) => false

/-- Headers.set semantics: every entry whose name matches case
insensitively is dropped and the new pair is appended. -/
def headersSet (hs : List (String × String)) (k v : String) :
    List (String × String) :=
  hs.filter (fun p => !(lowerStr p.1 = lowerStr k)) ++ [(k, v)]

/-- Property assignment on a plain record: an existing exact key is
overwritten in place, otherwise the pair is appended. -/
def recordSet (m : List (String × String)) (k v : String) :
    List (String × String) :=
  if m.any (fun p => p.1 = k) then
    m.map (fun p => if p.1 = k then (k, v) else p)
  else m ++ [(k, v)]

/-- Content-Type defaulting of the adapter (part_000 lines 229 to 248):
when the prepared body is a truthy string and the presence check fails,
the header is injected — set on a Headers instance, property assignment
on a plain record (an absent headers value first becomes an empty
record), and a push of another pair on a pair array. -/
def applyContentTypeDefault (bodyIsString : Bool)
    (h : Option HeaderContainer) : Option HeaderContainer :=
  if bodyIsString && !hasContentType h then
    some (match h with
      | none =>
        HeaderContainer.plainRecord [("Content-Type", "application/json")]
      | some (HeaderContainer.headersObj hs) =>
        HeaderContainer.headersObj
          (headersSet hs "Content-Type" "application/json")
      | some (HeaderContainer.plainRecord m) =>
        HeaderContainer.plainRecord
          (recordSet m "Content-Type" "application/json")
      | some (HeaderContainer.pairArray a) =>
        HeaderContainer.pairArray (a ++ [("Content-Type", "application/json")]))
  else h

/-- Whether a container holds a content-type entry under the case
insensitive reading every representation is supposed to share (the
notion the specification quantifies over). -/
def ciHasContentType (h : HeaderContainer) : Bool :=
  match h with
  | HeaderContainer.headersObj hs =>
    hs.any (fun p => lowerStr p.1 = "content-type".data)
  | HeaderContainer.plainRecord m =>
    m.any (fun p => lowerStr p.1 = "content-type".data)
  | HeaderContainer.pairArray a =>
    a.any (fun p => lowerStr p.1 = "content-type".data)

/- ===================================================================
   URL resolution: fetch adapter (part_000 lines 22 to 49) against the
   ApiClient string join (part_005 lines 112 to 116).
   =================================================================== -/

/-- Parsed http or https URL: scheme, nonempty host, and a path that is
either empty or starts with a slash.  Queries and fragments are carried
inside the path as opaque text. -/
structure UrlParts where
  scheme : List Char
  host : List Char
  path : List Char
deriving DecidableEq

/-- Split an authority-and-path remainder into host and path, rejecting
an empty host. -/
def mkParts (scheme rest : List Char) : Option UrlParts :=
  let host := rest.takeWhile (fun c => c ≠ '/')
  let path := rest.dropWhile (fun c => c ≠ '/')
  if host = [] then none else some ⟨scheme, host, path⟩

/-- Parse an absolute http or https URL string; anything else is not an
absolute URL of the modelled class. -/
def parseAbs (s : List Char) : Option UrlParts :=
  if "https://".data.isPrefixOf s then
    mkParts "https".data (s.drop 8)
  else if "http://".data.isPrefixOf s then
    mkParts "http".data (s.drop 7)
  else none

/-- Serialization of a parsed URL; an empty path serializes as a single
slash, as the platform href does. -/
def serializeUrl (u : UrlParts) : List Char :=
  u.scheme ++ "://".data ++ u.host ++ (if u.path = [] then "/".data else u.path)

/-- Path segments of a path beginning with a slash (the leading empty
segment produced by the split is dropped). -/
def pathSegsOf (p : List Char) : List (List Char) :=
  (p.splitOn '/').drop 1

/-- Segments of a relative path reference, which has no leading slash. -/
def relSegsOf (p : List Char) : List (List Char) :=
  p.splitOn '/'

/-- Dot-segment removal over a segment list, as in RFC 3986 path
normalization: single dots vanish and double dots pop the previous
segment. -/
def resolveSegs (segs : List (List Char)) : List (List Char) :=
  segs.foldl
    (fun acc seg =>
      if seg = ".".data then acc
      else if seg = "..".data then acc.dropLast
      else acc ++ [seg])
    []

/-- Serialize a segment list back into a slash-separated path with a
leading slash. -/
def joinSegs (segs : List (List Char)) : List Char :=
  '/' :: List.intercalate "/".data segs

/-- Model of the platform URL constructor new URL(rel, base) for http and
https URLs: an absolute rel wins; a scheme-relative rel adopts the base
scheme; a rel beginning with a slash replaces the whole base path; any
other rel replaces the last segment of the base path; dot segments are
normalized.  Construction fails (a TypeError in the platform) when
neither rel nor base parses as an absolute http(s) URL. -/
def whatwgResolve (rel base : List Char) : Option (List Char) :=
  match parseAbs rel with
  | some p => some (serializeUrl p)
  | none =>
    match parseAbs base with
    | none => none
    | some b =>
      if rel = [] then some (serializeUrl b)
      else if "//".data.isPrefixOf rel then
        (parseAbs (b.scheme ++ ":".data ++ rel)).map serializeUrl
      else if rel.head? = some '/' then
        some (serializeUrl ⟨b.scheme, b.host, joinSegs (resolveSegs (pathSegsOf rel))⟩)
      else
        some (serializeUrl
          ⟨b.scheme, b.host,
            joinSegs (resolveSegs ((pathSegsOf b.path).dropLast ++ relSegsOf rel))⟩)

/-- Value of the url or baseURL config field: a platform URL instance or
a string. -/
inductive JsUrlVal where
  | inst (u : UrlParts)
  | str (s : List Char)

/-- URL building of the fetch adapter (part_000 lines 22 to 49), branch
for branch: a URL instance in config.url wins; otherwise a URL instance
or truthy string in config.baseURL resolves config.url || "" against it;
otherwise a truthy config.url string must parse absolutely; otherwise
the request fails with a bad-config-value error.  Any construction
failure that is not the missing-URL error becomes an invalid-URL
error. -/
def adapterBuildURL (url baseURL : Option JsUrlVal) :
    Except ErrCode (List Char) :=
  match url with
  | some (JsUrlVal.inst u) => Except.ok (serializeUrl u)
  | _ =>
    let relStr : List Char :=
      match url with
      | some (JsUrlVal.str s) => s
      | _ => []
    match baseURL with
    | some (JsUrlVal.inst bu) =>
      match whatwgResolve relStr (serializeUrl bu) with
      | some u => Except.ok u
      | none => Except.error ErrCode.invalidUrl
    | some (JsUrlVal.str bs) =>
      if bs ≠ [] then
        match whatwgResolve relStr bs with
        | some u => Except.ok u
        | none => Except.error ErrCode.invalidUrl
      else if relStr ≠ [] then
        match parseAbs relStr with
        | some u => Except.ok (serializeUrl u)
        | none => Except.error ErrCode.invalidUrl
      else Except.error ErrCode.badConfigValue
    | none =>
      if relStr ≠ [] then
        match parseAbs relStr with
        | some u => Except.ok (serializeUrl u)
        | none => Except.error ErrCode.invalidUrl
      else Except.error ErrCode.badConfigValue

/-- Replacement of the regex for one trailing slash, as in
baseURL.replace of part_005 line 115. -/
def rstrip1 (s : List Char) : List Char :=
  if s.getLast? = some '/' then s.dropLast else s

/-- Replacement of the regex for one leading slash, as in url.replace of
part_005 line 116. -/
def lstrip1 (s : List Char) : List Char :=
  match s with
  | [] => []
  | c :: t => if c = '/' then t else c :: t

/-- URL building of ApiClient.request (part_005 lines 112 to 116): a url
starting with http passes through; otherwise the base (defaulting to the
empty string) is stripped of one trailing slash, the url of one leading
slash, and the two are joined by a single slash. -/
def apiJoin (baseURL : Option (List Char)) (url : List Char) : List Char :=
  if "http".data.isPrefixOf url then url
  else rstrip1 (baseURL.getD []) ++ '/' :: lstrip1 url

/-- Join following the wording of the specification: exactly one
separating slash between base and path, the trailing slash of the base
and the leading slash of the path normalized away.  Stated for comparison
with the two implementations. -/
def specOneSlashJoin (base path : List Char) : List Char :=
  rstrip1 base ++ '/' :: lstrip1 path

/- ===================================================================
   JSON body parsing: fetch adapter json branch (part_000 lines 272 to
   290) and parseJson of the api-client (part_006 lines 9 to 23).
   =================================================================== -/

/-- The json branch of the adapter response parsing: the body text is
read, an empty (falsy) text yields null data, and otherwise the platform
JSON parse runs, a failure becoming a bad-response error.  The platform
parser is abstracted as a function returning none exactly when it would
throw. -/
def adapterParseJsonText {V : Type} (jsonParse : String → Option V)
    (text : String) : Except ErrCode (Option V) :=
  if text = "" then Except.ok none
  else
    match jsonParse text with
    | some v => Except.ok (some v)
    | none => Except.error ErrCode.badResponse

/-- Function parseJson of the api-client default parsers (part_006): an
empty body text returns null, otherwise the platform JSON parse runs and
a failure is rethrown as a ParseError, modelled as the error case. -/
def parseJson {V : Type} (jsonParse : String → Option V) (text : String) :
    Except Unit (Option V) :=
  if text = "" then Except.ok none
  else
    match jsonParse text with
    | some v => Except.ok (some v)
    | none => Except.error ()

/- ===================================================================
   Concrete fixtures used by counterexamples and witnesses.
   =================================================================== -/

/-- Entries of a header container, independent of representation. -/
def headerEntries (c : HeaderContainer) : List (String × String) :=
  match c with
  | HeaderContainer.headersObj hs => hs
  | HeaderContainer.plainRecord m => m
  | HeaderContainer.pairArray a => a

/-- A user-cancellation error as ApiClient.executeRequest produces it:
class AbortError, no status property, not a fetch TypeError. -/
def cancelError : JsError :=
  ⟨false, none, "AbortError"⟩

/-- An HTTP 503 ApiError as parseError produces it. -/
def err503 : JsError :=
  ⟨false, some 503, "ApiError"⟩

/-- A retry policy with one retry and a custom predicate accepting every
error. -/
def retryCfgCustomTrue : JsRetryConfig :=
  ⟨some 1, none, none, none, none, some (fun _ => true), none⟩

/-- A retry policy with three retries and no custom predicate. -/
def retryCfgDefault : JsRetryConfig :=
  ⟨some 3, none, none, none, none, none, none⟩

/-- The scenario policy of the specification: two retries, fixed delay
100, exponential backoff with multiplier 2, no cap. -/
def retryCfgScenario : JsRetryConfig :=
  ⟨some 2, some (JsDelay.fixed 100), some true, some 2, none, none, none⟩

/-- A retry policy with one retry, fixed delay 100, backoff with
multiplier 2 and a supplied maxDelay cap of 0, which is falsy in
JavaScript. -/
def retryCfgCapZero : JsRetryConfig :=
  ⟨some 1, some (JsDelay.fixed 100), some true, some 2, some 0, none, none⟩

/-- A tiny stand-in for the platform JSON parser: accepts exactly the
text 1. -/
def jsonParseFix : String → Option Nat :=
  fun s => if s = "1" then some 1 else none

/- ===================================================================
   Theorems.
   =================================================================== -/

/-- C1: evaluation of the request interceptor loop at a failing input.
An interceptor registered with an onFulfilled handler and no runWhen
predicate is skipped by HttpClient.request (the config passes through
unchanged), while the very same handler runs once a runWhen returning
true is attached.  The claim states that an entry without runWhen has
its onFulfilled applied; the source gate
if (!runWhen || !runWhen(requestConfig)) return requestConfig
inverts the documented condition, contradicting the comment directly
above it and making the optional runWhen parameter mandatory in
practice. -/
theorem runWhen_absent_skips_onFulfilled :
    runRequestInterceptors (C := Nat) (E := Unit)
      [some ⟨some (fun c => Except.ok (c + 1)), none, none⟩]
      (Except.ok 0) = Except.ok 0
    ∧ runRequestInterceptors (C := Nat) (E := Unit)
      [some ⟨some (fun c => Except.ok (c + 1)), none, some (fun _ => true)⟩]
      (Except.ok 0) = Except.ok 1 :=
  ⟨rfl, rfl⟩

/-- Applying one manager operation never shrinks the interceptors
array. -/
theorem imApply_length_le {I : Type} (s : ImState I) (op : ImOp I) :
    s.length ≤ (imApply s op).length := by
  cases op with
  | use i => simp [imApply, imUse]
  | eject id =>
    simp only [imApply, imEject]
    split <;> simp

/-- Running any sequence of use and eject operations never shrinks the
interceptors array. -/
theorem imRun_length_le {I : Type} (ops : List (ImOp I)) (s : ImState I) :
    s.length ≤ (imRun s ops).length := by
  induction ops generalizing s with
  | nil => simp [imRun]
  | cons op rest ih =>
    calc s.length ≤ (imApply s op).length := imApply_length_le s op
      _ ≤ (imRun (imApply s op) rest).length := ih (imApply s op)
      _ = (imRun s (op :: rest)).length := by simp [imRun]

/-- C10: id discipline of the http-client InterceptorManager.  A use
returns the current array length minus one; a use right after clear
returns id 0 (so earlier ids are reassigned); eject keeps the array
length and every other slot unchanged, so ids never shift; and any use
performed after further use and eject operations (no clear) returns a
strictly larger id than an earlier use, so an ejected id is never issued
again between clears. -/
theorem interceptor_id_stability (I : Type) (s : ImState I) (i i2 : I)
    (id : Nat) (ops : List (ImOp I)) :
    (imUse s i).1 = s.length
    ∧ (imUse (imClear s) i).1 = 0
    ∧ (imEject s id).length = s.length
    ∧ (∀ j, j ≠ id → (imEject s id).getD j none = s.getD j none)
    ∧ (imUse s i).1 < (imUse (imRun (imUse s i).2 ops) i2).1 := by
  refine ⟨rfl, rfl, ?_, ?_, ?_⟩
  · simp only [imEject]
    split <;> simp
  · intro j hj
    simp only [imEject]
    split
    · simp [List.getD_eq_getElem?_getD, List.getElem?_set_ne (Ne.symm hj)]
    · rfl
  · have h := imRun_length_le ops (imUse s i).2
    simp only [imUse, List.length_append, List.length_cons,
      List.length_nil] at h ⊢
    omega

/-- C10 witness: concrete id arithmetic on a two-slot manager. -/
theorem interceptor_id_stability_witness :
    (imUse ([some 5] : ImState Nat) 7).1 = 1
    ∧ (imUse (imClear ([some 5] : ImState Nat)) 7).1 = 0
    ∧ (imEject ([some 5, some 6] : ImState Nat) 0).getD 1 none = some 6
    ∧ (imUse ([some 5] : ImState Nat) 7).1
        < (imUse (imRun (imUse ([some 5] : ImState Nat) 7).2
            [ImOp.eject 1, ImOp.use 9]) 8).1 := by
  have h1 := interceptor_id_stability Nat [some 5] 7 8 0 [ImOp.eject 1, ImOp.use 9]
  have h2 := interceptor_id_stability Nat [some 5, some 6] 7 8 0 []
  exact ⟨h1.1, h1.2.1, (h2.2.2.2.1 1 (by decide)).trans (by decide), h1.2.2.2.2⟩

/-- C6 counterexample: the http-client response error path neither
recovers nor runs in reverse.  First conjunct: the first interceptor has
an onRejected returning the plain value 42, yet the pipeline stays
rejected and the second onFulfilled (which would map 42 to 142) never
runs — the claim predicts Except.ok 142.  Second conjunct: two rejection
handlers compose in forward registration order, (1 + 1) * 2 = 4, where
reverse order would give 1 * 2 + 1 = 3. -/
theorem response_error_path_no_recovery_cex :
    runResponseInterceptors (R := Nat) (E := Nat)
      [some ⟨some (fun r => Except.ok r), some (fun _ => 42)⟩,
       some ⟨some (fun r => Except.ok (r + 100)), none⟩]
      (Except.error 0) = Except.error 42
    ∧ runResponseInterceptors (R := Nat) (E := Nat)
      [some ⟨some (fun r => Except.ok r), some (fun e => e + 1)⟩,
       some ⟨some (fun r => Except.ok r), some (fun e => e * 2)⟩]
      (Except.error 1) = Except.error 4 :=
  ⟨rfl, rfl⟩

/-- On a rejected promise, one response interceptor step stays rejected
and rewrites the error by its rejection effect. -/
theorem stepResp_error {R E : Type} (e : E) (i : Option (RespInterceptor R E)) :
    stepResp (R := R) (Except.error e) i
      = Except.error (respRejectEffect (R := R) e i) := by
  match i with
  | none => rfl
  | some i =>
    cases hf : i.onFulfilled <;> simp [stepResp, respRejectEffect, hf]

/-- C6 as the code has it: once the http-client response pipeline is
rejected it stays rejected to the end — every entry merely rewrites the
error in FORWARD registration order (entries without onFulfilled attach
nothing and are skipped even on the error path), and no onRejected
return value ever converts the pipeline back to success; the api-client
executeErrorInterceptors does walk the same collection in reverse
registration order, applying only the onRejected handlers, but its
result is rethrown by its caller, so recovery does not happen there
either. -/
theorem response_error_path_characterization {R E : Type}
    (chain : List (Option (RespInterceptor R E)))
    (entries : List (AcRespEntry R E)) (e : E) :
    runResponseInterceptors chain (Except.error e)
      = Except.error (chain.foldl respRejectEffect e)
    ∧ executeErrorInterceptors entries e
      = entries.foldr
          (fun ent acc =>
            match ent.onRejected with
            | some rej => rej acc
            | none => acc)
          e := by
  constructor
  · induction chain generalizing e with
    | nil => rfl
    | cons i rest ih =>
      simp only [runRequestInterceptors, runResponseInterceptors, List.foldl_cons]
      rw [stepResp_error]
      exact ih (respRejectEffect e i)
  · simp [executeErrorInterceptors, List.foldl_reverse]

/-- C2 counterexample: a user-cancellation error is retried when a
custom retryCondition accepts it.  The policy allows one retry and its
predicate returns true for every error; the dispatcher always fails with
the AbortError-shaped cancellation error; executeWithRetry dispatches
twice, while the claim demands a single dispatch. -/
theorem canceled_error_retried_by_custom_predicate :
    (executeWithRetry (T := Unit) (fun _ => Except.error cancelError)
      retryCfgCustomTrue).dispatches = 2
    ∧ cancelError.name = "AbortError" := by
  exact ⟨rfl, rfl⟩

/-- The default retry decision declines any error that is not a fetch
TypeError, has no status and is not named TimeoutError. -/
theorem shouldRetry_false_of_cancel (e : JsError) (codes : Option (List Int))
    (he : e.isFetchTypeError = false) (hs : e.status = none)
    (hn : e.name ≠ "TimeoutError") :
    shouldRetry e codes = false := by
  simp [shouldRetry, he, hs, hn]

/-- C2 amended: under the default policy (no custom retryCondition) a
cancellation error — AbortError shaped: not a fetch TypeError, no status
property, name distinct from TimeoutError — is never retried: an
always-cancelling dispatcher is dispatched exactly once whatever the
attempts budget and the retryableStatusCodes list, and the cancellation
error is the final result.  (A supplied retryCondition has final say and
can override this, per the counterexample.) -/
theorem canceled_error_not_retried_by_default {T : Type}
    (dispatch : Nat → Except JsError T) (cfg : JsRetryConfig) (e : JsError)
    (hc : cfg.retryCondition = none)
    (he : e.isFetchTypeError = false) (hs : e.status = none)
    (hn : e.name ≠ "TimeoutError")
    (hd : ∀ i, dispatch i = Except.error e) :
    (executeWithRetry dispatch cfg).dispatches = 1
    ∧ (executeWithRetry dispatch cfg).result = Except.error e := by
  have hdec : retryDecision cfg e = false := by
    simp [retryDecision, hc, shouldRetry_false_of_cancel e _ he hs hn]
  unfold executeWithRetry
  cases hA : cfg.attempts.getD 0 with
  | zero =>
    simp [retryLoop, hd 0]
  | succ n =>
    simp [retryLoop, hd 0, hdec]

/-- C2 amended witness: with three allowed retries and no custom
predicate, the cancellation error is dispatched once and surfaces. -/
theorem canceled_error_not_retried_by_default_witness :
    (executeWithRetry (T := Unit) (fun _ => Except.error cancelError)
      retryCfgDefault).dispatches = 1
    ∧ (executeWithRetry (T := Unit) (fun _ => Except.error cancelError)
      retryCfgDefault).result = Except.error cancelError :=
  canceled_error_not_retried_by_default (fun _ => Except.error cancelError)
    retryCfgDefault cancelError rfl rfl rfl (by decide) (fun _ => rfl)

/-- The retry loop never dispatches more often than its iteration
budget. -/
theorem retryLoop_dispatches_le {T : Type} (dispatch : Nat → Except JsError T)
    (dec : JsError → Bool) (del : Nat → Nat) :
    ∀ (r i : Nat), (retryLoop dispatch dec del i r).dispatches ≤ r := by
  intro r
  induction r with
  | zero => intro i; simp [retryLoop]
  | succ n ih =>
    intro i
    cases hd : dispatch i with
    | ok v => simp [retryLoop, hd]
    | error e =>
      by_cases h0 : n = 0
      · simp [retryLoop, hd, h0]
      · by_cases hdec : dec e
        · simp only [retryLoop, hd, h0, hdec, if_false, if_true]
          have := ih (i + 1)
          omega
        · simp [retryLoop, hd, h0, hdec]

/-- Unfolding of one iteration of the retry loop, with the recursive
call left folded. -/
theorem retryLoop_succ_eq {T : Type} (dispatch : Nat → Except JsError T)
    (dec : JsError → Bool) (del : Nat → Nat) (i r : Nat) :
    retryLoop dispatch dec del i (r + 1) =
      match dispatch i with
      | Except.ok v => ⟨1, [], Except.ok v⟩
      | Except.error e =>
        if r = 0 then ⟨1, [], Except.error e⟩
        else if dec e then
          ⟨(retryLoop dispatch dec del (i + 1) r).dispatches + 1,
            del i :: (retryLoop dispatch dec del (i + 1) r).delays,
            (retryLoop dispatch dec del (i + 1) r).result⟩
        else ⟨1, [], Except.error e⟩ := by
  cases hd : dispatch i with
  | ok v => simp [retryLoop, hd]
  | error e =>
    by_cases h0 : r = 0 <;> by_cases hdec : dec e <;>
      simp [retryLoop, hd, h0, hdec]

/-- Trace of the retry loop against a dispatcher that always fails with
a retry-eligible error: the budget is used fully and one delay is slept
between consecutive attempts. -/
theorem retryLoop_fail_trace {T : Type} (dispatch : Nat → Except JsError T)
    (dec : JsError → Bool) (del : Nat → Nat)
    (h : ∀ i, ∃ e, dispatch i = Except.error e ∧ dec e = true) :
    ∀ (r i : Nat), (retryLoop dispatch dec del i (r + 1)).dispatches = r + 1
      ∧ (retryLoop dispatch dec del i (r + 1)).delays
          = (List.range r).map (fun k => del (i + k)) := by
  intro r
  induction r with
  | zero =>
    intro i
    obtain ⟨e, he, -⟩ := h i
    simp [retryLoop, he]
  | succ n ih =>
    intro i
    obtain ⟨e, he, hdec⟩ := h i
    have hrec := ih (i + 1)
    have hshift : (fun k => del (i + 1 + k)) = (fun k => del (i + k)) ∘ Nat.succ := by
      funext k
      simp only [Function.comp]
      congr 1
      omega
    constructor
    · rw [retryLoop_succ_eq, he]
      simp [hdec, hrec.1]
    · rw [retryLoop_succ_eq, he]
      simp only [Nat.succ_ne_zero, if_false, hdec, if_true]
      simp only [hrec.2, List.range_succ_eq_map, List.map_cons, List.map_map]
      rw [hshift]
      simp

/-- C5 counterexample: the claimed clamping and base-delay semantics
fail on JavaScript-falsy policy values.  With a supplied maxDelay cap of
0 the claim demands the backoff delay min(100 * 2 ^ 0, 0) = 0, but
calculateRetryDelay tests maxDelay for truthiness and does not clamp, so
the single inter-attempt delay of the cap-0 policy is 100, not 0; and a
supplied fixed delay of 0 is claimed to be the base delay, but the retry
loop computes delay || 1000 and sleeps 1000. -/
theorem retry_cap_zero_not_clamped_cex :
    (executeWithRetry (T := Unit) (fun _ => Except.error err503)
      retryCfgCapZero).delays = [100]
    ∧ min (100 * 2 ^ 0) 0 = 0
    ∧ (100 : Nat) ≠ 0
    ∧ baseDelayOf (some (JsDelay.fixed 0)) 0 = 1000
    ∧ (1000 : Nat) ≠ 0 := by
  exact ⟨rfl, by decide, by decide, rfl, by decide⟩

/-- C5 amended: with attempts = N and a dispatcher failing every attempt
with a retry-eligible error, executeWithRetry dispatches exactly N + 1
times and sleeps exactly N inter-attempt delays; the i-th delay is
base(i) * multiplier ^ i under backoff — clamped by min to a supplied
NONZERO maxDelay, a cap of 0 being falsy and clamping nothing — and
base(i) alone otherwise, where base(i) is the supplied delay function at
i, or the supplied fixed delay with 0 and absent falling back to 1000,
and the multiplier falls back to 2 when 0 or absent; and for every
dispatcher and policy the dispatch count is bounded by attempts + 1. -/
theorem retry_count_and_delay_trace {T : Type}
    (dispatch : Nat → Except JsError T) (cfg : JsRetryConfig) (N : Nat)
    (hatt : cfg.attempts = some N)
    (hfail : ∀ i, ∃ e, dispatch i = Except.error e ∧ retryDecision cfg e = true) :
    (executeWithRetry dispatch cfg).dispatches = N + 1
    ∧ (executeWithRetry dispatch cfg).delays
        = (List.range N).map (fun i =>
            if cfg.backoff.getD false then
              match cfg.maxDelay with
              | some m =>
                if m = 0 then baseDelayOf cfg.delay i * jsMultiplier cfg ^ i
                else min (baseDelayOf cfg.delay i * jsMultiplier cfg ^ i) m
              | none => baseDelayOf cfg.delay i * jsMultiplier cfg ^ i
            else baseDelayOf cfg.delay i)
    ∧ (∀ (dispatch2 : Nat → Except JsError T) (cfg2 : JsRetryConfig),
        (executeWithRetry dispatch2 cfg2).dispatches
          ≤ cfg2.attempts.getD 0 + 1) := by
  have htr := retryLoop_fail_trace dispatch (retryDecision cfg) (delayAt cfg)
    hfail N 0
  refine ⟨?_, ?_, ?_⟩
  · unfold executeWithRetry
    rw [hatt]
    simpa using htr.1
  · unfold executeWithRetry
    rw [hatt]
    simp only [Option.getD_some]
    rw [htr.2]
    apply List.map_congr_left
    intro k _
    simp only [Nat.zero_add]
    unfold delayAt calculateRetryDelay
    cases hb : cfg.backoff.getD false with
    | false => simp [hb]
    | true =>
      cases hm : cfg.maxDelay with
      | none => simp [hm, hb]
      | some m => simp [hm, hb]
  · intro dispatch2 cfg2
    exact retryLoop_dispatches_le dispatch2 (retryDecision cfg2) (delayAt cfg2)
      (cfg2.attempts.getD 0 + 1) 0

/-- C5 amended witness: the specification scenario (attempts 2, fixed
delay 100, multiplier 2, no cap) gives three dispatches with delays 100
then 200; the cap-0 policy gives two dispatches with the unclamped delay
100. -/
theorem retry_count_and_delay_trace_witness :
    (executeWithRetry (T := Unit) (fun _ => Except.error err503)
      retryCfgScenario).dispatches = 3
    ∧ (executeWithRetry (T := Unit) (fun _ => Except.error err503)
      retryCfgScenario).delays = [100, 200]
    ∧ (executeWithRetry (T := Unit) (fun _ => Except.error err503)
      retryCfgCapZero).dispatches = 2
    ∧ (executeWithRetry (T := Unit) (fun _ => Except.error err503)
      retryCfgCapZero).delays = [100] := by
  have h := retry_count_and_delay_trace (T := Unit)
    (fun _ => Except.error err503) retryCfgScenario 2 rfl
    (fun i => ⟨err503, rfl, by decide⟩)
  have h0 := retry_count_and_delay_trace (T := Unit)
    (fun _ => Except.error err503) retryCfgCapZero 1 rfl
    (fun i => ⟨err503, rfl, by decide⟩)
  exact ⟨h.1, h.2.1.trans (by decide), h0.1, h0.2.1.trans (by decide)⟩

/-- C3 counterexample: a request config with an absent timeout and no
caller signal still arms a timer in the fetch adapter, because the
source defaults config.timeout ?? 30000 before testing timeout > 0; the
effective signal is the timeout controller signal, so cancellation
wiring exists as well. -/
theorem absent_timeout_arms_timer :
    adapterTimerCreated none = true
    ∧ adapterFinalSignal none false = FinalSignal.timeoutOnly :=
  ⟨rfl, rfl⟩

/-- C3 amended: an explicit timeout of zero (or below) with no caller
signal creates no timer and no cancellation wiring in the fetch adapter,
and the ApiClient dispatcher arms no timeout for a zero or absent
timeout; but an absent timeout in the fetch adapter defaults to 30000
and arms a timer. -/
theorem zero_timeout_no_timer_no_wiring :
    (∀ useXHR, apiClientTimerCreated none useXHR = false
      ∧ apiClientTimerCreated (some 0) useXHR = false)
    ∧ (∀ t : Int, t ≤ 0 → adapterTimerCreated (some t) = false
      ∧ adapterFinalSignal (some t) false = FinalSignal.noSignal)
    ∧ adapterTimerCreated none = true := by
  refine ⟨?_, ?_, rfl⟩
  · intro useXHR
    constructor <;> simp [apiClientTimerCreated]
  · intro t ht
    have hng : ¬ ((Option.some t).getD 30000 > 0) := by
      simp only [Option.getD_some]
      omega
    constructor
    · simp only [adapterTimerCreated, decide_eq_false_iff_not]
      exact hng
    · simp only [adapterFinalSignal, if_neg hng]
      simp

/-- C3 amended witness: timeout zero and timeout minus one arm nothing
in the adapter; the ApiClient arms nothing for an absent timeout. -/
theorem zero_timeout_no_timer_no_wiring_witness :
    adapterTimerCreated (some 0) = false
    ∧ adapterFinalSignal (some (-1)) false = FinalSignal.noSignal
    ∧ apiClientTimerCreated none false = false := by
  have h := zero_timeout_no_timer_no_wiring
  exact ⟨(h.2.1 0 (by omega)).1, (h.2.1 (-1) (by omega)).2, (h.1 false).1⟩

/-- Once the user handler has fired first, no later event can set the
timeout flag: the timer was cleared and the state keeps both facts. -/
theorem raceStep_keeps_user_attribution (s : RaceState) (ev : RaceEvent)
    (h1 : s.isTimeoutAborted = false) (h2 : s.timerArmed = false) :
    (raceStep s ev).isTimeoutAborted = false
    ∧ (raceStep s ev).timerArmed = false := by
  cases ev with
  | timerFires => simp [raceStep, h2, h1]
  | userAborts =>
    by_cases hu : s.userHandlerAttached = true <;>
      simp [raceStep, hu, h1, h2]

/-- The timeout flag, once set, is never unset by any event. -/
theorem raceStep_keeps_timeout_attribution (s : RaceState) (ev : RaceEvent)
    (h1 : s.isTimeoutAborted = true) :
    (raceStep s ev).isTimeoutAborted = true := by
  cases ev with
  | timerFires =>
    by_cases ht : s.timerArmed = true
    · by_cases hh : s.timeoutHandlerAttached = true <;>
        simp [raceStep, ht, hh, h1]
    · simp [raceStep, ht, h1]
  | userAborts =>
    by_cases hu : s.userHandlerAttached = true <;> simp [raceStep, hu, h1]

/-- Running any events from a user-attributed state keeps the
attribution. -/
theorem raceRun_keeps_user_attribution (evs : List RaceEvent) (s : RaceState)
    (h1 : s.isTimeoutAborted = false) (h2 : s.timerArmed = false) :
    (raceRun s evs).isTimeoutAborted = false := by
  induction evs generalizing s with
  | nil => exact h1
  | cons ev rest ih =>
    have h := raceStep_keeps_user_attribution s ev h1 h2
    simpa [raceRun] using ih (raceStep s ev) h.1 h.2

/-- Running any events from a timeout-attributed state keeps the
attribution. -/
theorem raceRun_keeps_timeout_attribution (evs : List RaceEvent) (s : RaceState)
    (h1 : s.isTimeoutAborted = true) :
    (raceRun s evs).isTimeoutAborted = true := by
  induction evs generalizing s with
  | nil => exact h1
  | cons ev rest ih =>
    simpa [raceRun] using
      ih (raceStep s ev) (raceStep_keeps_timeout_attribution s ev h1)

/-- C4: with both a timer and a user signal armed, the first source to
fire fixes the attribution.  If the user signal fires first then, after
any sequence of further events, handleAbortError reports Canceled and
never Timedout, and the firing immediately detached the timeout handler
and cleared the timer; symmetrically, if the timer fires first the
report is Timedout and never Canceled, and the user handler was detached
immediately. -/
theorem abort_race_attribution (evs : List RaceEvent) :
    (handleAbortError (raceRun (raceStep armedBoth RaceEvent.userAborts) evs)
        = ErrCode.canceled
      ∧ (raceStep armedBoth RaceEvent.userAborts).timeoutHandlerAttached = false
      ∧ (raceStep armedBoth RaceEvent.userAborts).timerArmed = false)
    ∧ (handleAbortError (raceRun (raceStep armedBoth RaceEvent.timerFires) evs)
        = ErrCode.timedout
      ∧ (raceStep armedBoth RaceEvent.timerFires).userHandlerAttached = false) := by
  refine ⟨⟨?_, rfl, rfl⟩, ⟨?_, rfl⟩⟩
  · have h := raceRun_keeps_user_attribution evs
      (raceStep armedBoth RaceEvent.userAborts) rfl rfl
    simp [handleAbortError, h]
  · have h := raceRun_keeps_timeout_attribution evs
      (raceStep armedBoth RaceEvent.timerFires) rfl
    simp [handleAbortError, h]

/-- C7 counterexample: a request whose headers are the pair-array
representation with an explicitly set Content-Type still gets a second
Content-Type pair pushed by the adapter, because the property-in test on
an array never sees the contained pairs — the explicit header is not
left untouched. -/
theorem content_type_pair_array_cex :
    applyContentTypeDefault true
      (some (HeaderContainer.pairArray [("Content-Type", "text/plain")]))
      = some (HeaderContainer.pairArray
          [("Content-Type", "text/plain"), ("Content-Type", "application/json")])
    ∧ ciHasContentType
        (HeaderContainer.pairArray [("Content-Type", "text/plain")]) = true := by
  exact ⟨rfl, by decide⟩

/-- C7 amended: when the presence check fails, a string body gets
Content-Type application/json injected into whatever container exists
(an absent one becoming a fresh record); an explicitly set content-type
is respected for the Headers representation (case-insensitive has) and
for a plain record holding the exact key Content-Type; but on the
pair-array representation the check never fires and a duplicate pair is
always appended; with a non-string body nothing changes. -/
theorem content_type_defaulting_characterization
    (h h2 : Option HeaderContainer) (hs m a : List (String × String)) :
    (hasContentType h = false →
      ∃ c, applyContentTypeDefault true h = some c
        ∧ ("Content-Type", "application/json") ∈ headerEntries c)
    ∧ (ciHasContentType (HeaderContainer.headersObj hs) = true →
      applyContentTypeDefault true (some (HeaderContainer.headersObj hs))
        = some (HeaderContainer.headersObj hs))
    ∧ (m.any (fun p => p.1 = "Content-Type") = true →
      applyContentTypeDefault true (some (HeaderContainer.plainRecord m))
        = some (HeaderContainer.plainRecord m))
    ∧ applyContentTypeDefault true (some (HeaderContainer.pairArray a))
        = some (HeaderContainer.pairArray
            (a ++ [("Content-Type", "application/json")]))
    ∧ applyContentTypeDefault false h2 = h2 := by
  refine ⟨?_, ?_, ?_, ?_, by simp [applyContentTypeDefault]⟩
  · intro hf
    match h with
    | none =>
      exact ⟨HeaderContainer.plainRecord [("Content-Type", "application/json")],
        rfl, by simp [headerEntries]⟩
    | some (HeaderContainer.headersObj hs0) =>
      refine ⟨HeaderContainer.headersObj
        (headersSet hs0 "Content-Type" "application/json"), ?_, ?_⟩
      · simp [applyContentTypeDefault, hf]
      · simp [headerEntries, headersSet]
    | some (HeaderContainer.plainRecord m0) =>
      have hm0 : m0.any (fun p => p.1 = "Content-Type") = false := by
        simpa [hasContentType] using hf
      refine ⟨HeaderContainer.plainRecord
        (recordSet m0 "Content-Type" "application/json"), ?_, ?_⟩
      · simp [applyContentTypeDefault, hasContentType, hm0]
      · simp [headerEntries, recordSet, hm0]
    | some (HeaderContainer.pairArray a0) =>
      exact ⟨HeaderContainer.pairArray
        (a0 ++ [("Content-Type", "application/json")]),
        by simp [applyContentTypeDefault, hasContentType],
        by simp [headerEntries]⟩
  · intro hct
    have : hasContentType (some (HeaderContainer.headersObj hs)) = true := hct
    simp [applyContentTypeDefault, this]
  · intro hct
    have : hasContentType (some (HeaderContainer.plainRecord m)) = true := by
      simpa [hasContentType] using hct
    simp [applyContentTypeDefault, this]
  · simp [applyContentTypeDefault, hasContentType]

/-- C7 amended witness: a differently-cased explicit header in a Headers
container and an exact-key record are both respected; an absent
container receives the injected pair. -/
theorem content_type_defaulting_witness :
    applyContentTypeDefault true
      (some (HeaderContainer.headersObj [("CONTENT-TYPE", "text/xml")]))
      = some (HeaderContainer.headersObj [("CONTENT-TYPE", "text/xml")])
    ∧ applyContentTypeDefault true
      (some (HeaderContainer.plainRecord [("Content-Type", "text/xml")]))
      = some (HeaderContainer.plainRecord [("Content-Type", "text/xml")])
    ∧ (∃ c, applyContentTypeDefault true none = some c
        ∧ ("Content-Type", "application/json") ∈ headerEntries c) := by
  have h := content_type_defaulting_characterization none none
    [("CONTENT-TYPE", "text/xml")] [("Content-Type", "text/xml")] []
  exact ⟨h.2.1 (by decide), h.2.2.1 (by decide), h.1 (by decide)⟩

/-- C8 counterexample: the fetch adapter resolves the relative path
users against the base https://a.com/v2 by WHATWG rules, replacing the
last path segment and producing https://a.com/users, while the claimed
one-separating-slash join of base and path produces
https://a.com/v2/users — the adapter does not implement the claimed
join. -/
theorem adapter_url_join_cex :
    adapterBuildURL (some (JsUrlVal.str "users".data))
      (some (JsUrlVal.str "https://a.com/v2".data))
      = Except.ok "https://a.com/users".data
    ∧ specOneSlashJoin "https://a.com/v2".data "users".data
      = "https://a.com/v2/users".data
    ∧ "https://a.com/users".data ≠ "https://a.com/v2/users".data := by
  refine ⟨rfl, by decide, by decide⟩

/-- Stripping one trailing slash removes an attached final slash and
leaves a string without one alone. -/
theorem rstrip1_spec (b : List Char) (hb : b.getLast? ≠ some '/') :
    rstrip1 (b ++ ['/']) = b ∧ rstrip1 b = b := by
  constructor
  · simp [rstrip1, List.getLast?_concat, List.dropLast_concat]
  · simp [rstrip1, hb]

/-- Stripping one leading slash removes an attached initial slash and
leaves a string without one alone. -/
theorem lstrip1_spec (u : List Char) (hu : u.head? ≠ some '/') :
    lstrip1 ('/' :: u) = u ∧ lstrip1 u = u := by
  constructor
  · simp [lstrip1]
  · match u with
    | [] => rfl
    | c :: t =>
      have hc : ¬ (c = '/') := by
        intro hc
        exact hu (by simp [hc])
      simp [lstrip1, hc]

/-- C8 amended: an absolute URL wins in both implementations — a URL
instance passes through the adapter untouched and a url starting with
http passes through the ApiClient join untouched; the ApiClient join is
exactly the one-separating-slash join of the specification, normalizing
a single trailing slash of the base and a single leading slash of the
path; and a nonempty url string that parses as no absolute URL fails in
the adapter with the invalid-URL error (not a network error), when no
base URL is configured. -/
theorem url_resolution_characterization (u : UrlParts)
    (base : Option JsUrlVal) (bo : Option (List Char)) (b url s : List Char) :
    adapterBuildURL (some (JsUrlVal.inst u)) base = Except.ok (serializeUrl u)
    ∧ ("http".data.isPrefixOf url = true → apiJoin bo url = url)
    ∧ ("http".data.isPrefixOf url = false →
        apiJoin (some b) url = specOneSlashJoin b url)
    ∧ (b.getLast? ≠ some '/' → url.head? ≠ some '/' →
        "http".data.isPrefixOf url = false →
        specOneSlashJoin b url = b ++ '/' :: url
        ∧ specOneSlashJoin (b ++ ['/']) url = b ++ '/' :: url
        ∧ specOneSlashJoin b ('/' :: url) = b ++ '/' :: url
        ∧ specOneSlashJoin (b ++ ['/']) ('/' :: url) = b ++ '/' :: url)
    ∧ (s ≠ [] → parseAbs s = none →
        adapterBuildURL (some (JsUrlVal.str s)) none
          = Except.error ErrCode.invalidUrl) := by
  refine ⟨rfl, ?_, ?_, ?_, ?_⟩
  · intro hp
    simp [apiJoin, hp]
  · intro hp
    simp [apiJoin, specOneSlashJoin, hp]
  · intro hb hu _
    have hr := rstrip1_spec b hb
    have hl := lstrip1_spec url hu
    refine ⟨?_, ?_, ?_, ?_⟩ <;>
      simp [specOneSlashJoin, hr.1, hr.2, hl.1, hl.2]
  · intro hs hp
    simp [adapterBuildURL, hs, hp]

/-- C8 amended witness: concrete one-slash joins, an absolute url
passing through the ApiClient join, and a malformed url failing with the
invalid-URL error in the adapter. -/
theorem url_resolution_characterization_witness :
    specOneSlashJoin ("https://a.com/v2".data ++ ['/'])
        ('/' :: "users".data) = "https://a.com/v2".data ++ '/' :: "users".data
    ∧ apiJoin (some "x".data) "https://b.com".data = "https://b.com".data
    ∧ adapterBuildURL (some (JsUrlVal.str "notaurl".data)) none
        = Except.error ErrCode.invalidUrl := by
  have h := url_resolution_characterization ⟨"https".data, "a.com".data, []⟩
    none (some "x".data) "https://a.com/v2".data "users".data "notaurl".data
  have habs := url_resolution_characterization ⟨"https".data, "a.com".data, []⟩
    none (some "x".data) "https://a.com/v2".data "https://b.com".data []
  exact ⟨(h.2.2.2.1 (by decide) (by decide) (by decide)).2.2.2,
    habs.2.1 (by decide), h.2.2.2.2 (by decide) (by decide)⟩

/-- C9: both JSON parsing paths — the json branch of the fetch adapter
and parseJson of the api-client — return null data for an empty body
text without raising, and raise their parse error exactly when the body
text is nonempty and fails to parse. -/
theorem empty_body_json_null {V : Type} (jsonParse : String → Option V)
    (text : String) :
    adapterParseJsonText jsonParse "" = Except.ok none
    ∧ parseJson jsonParse "" = Except.ok none
    ∧ (adapterParseJsonText jsonParse text = Except.error ErrCode.badResponse
        ↔ text ≠ "" ∧ jsonParse text = none)
    ∧ (parseJson jsonParse text = Except.error ()
        ↔ text ≠ "" ∧ jsonParse text = none) := by
  refine ⟨rfl, rfl, ?_, ?_⟩ <;>
  · by_cases ht : text = ""
    · subst ht
      simp [adapterParseJsonText, parseJson]
    · cases hp : jsonParse text <;>
        simp [adapterParseJsonText, parseJson, ht, hp]

/-- C9 witness: with a parser accepting exactly the text 1, the empty
text yields null, an unparseable text raises, and a parseable text
succeeds. -/
theorem empty_body_json_null_witness :
    adapterParseJsonText jsonParseFix "" = Except.ok none
    ∧ adapterParseJsonText jsonParseFix "x" = Except.error ErrCode.badResponse
    ∧ parseJson jsonParseFix "1" = Except.ok (some 1) := by
  have h := empty_body_json_null jsonParseFix "x"
  exact ⟨h.1, h.2.2.1.mpr ⟨by decide, by decide⟩, rfl⟩

/-- C4 witness: a concrete late event on either side leaves the
attribution of the first firing source intact. -/
theorem abort_race_attribution_witness :
    handleAbortError (raceRun (raceStep armedBoth RaceEvent.userAborts)
      [RaceEvent.timerFires]) = ErrCode.canceled
    ∧ handleAbortError (raceRun (raceStep armedBoth RaceEvent.timerFires)
      [RaceEvent.userAborts]) = ErrCode.timedout :=
  ⟨(abort_race_attribution [RaceEvent.timerFires]).1.1,
   (abort_race_attribution [RaceEvent.userAborts]).2.1⟩

/-- C6 amended witness: a rejected http-client pipeline rewrites the
error forward and stays rejected; the api-client error interceptors
compose in reverse order. -/
theorem response_error_path_characterization_witness :
    runResponseInterceptors (R := Nat) (E := Nat)
      [some ⟨some (fun r => Except.ok r), some (fun e => e + 1)⟩]
      (Except.error 5) = Except.error 6
    ∧ executeErrorInterceptors (R := Nat) (E := Nat)
      [⟨none, some (fun e => e * 2)⟩, ⟨none, some (fun e => e + 1)⟩] 1 = 4 := by
  have h1 := response_error_path_characterization (R := Nat) (E := Nat)
    [some ⟨some (fun r => Except.ok r), some (fun e => e + 1)⟩] [] 5
  have h2 := response_error_path_characterization (R := Nat) (E := Nat)
    [] [⟨none, some (fun e => e * 2)⟩, ⟨none, some (fun e => e + 1)⟩] 1
  exact ⟨h1.1.trans (by rfl), h2.2.trans (by rfl)⟩
